import Mathlib

/-!
Shallow embedding of `scripts/compute.py` from the `ptn_temporal_distances`
repository: the orchestration and caching pipeline around a multi-objective
transit profile computation.

Modelling conventions:
* Python strings are modelled as `List Char`; observable names are `String`.
* Python/numpy floats are modelled by the inductive `PFloat` (the pipeline
  only tests them for NaN / infinity and compares them with 0, so finite
  values are carried as rationals).
* CSV files are modelled as lists of already-parsed row records; a parse
  failure (`int()` on a malformed field) aborts the whole read and is
  outside the properties treated here.
* The results directory is modelled as an association list from file name
  to stored blob; `pickle.dump` to a name shadows the previous file.
* The external gtfspy engine (`MultiObjectivePseudoCSAProfiler`,
  `NodeProfileAnalyzerTimeAndVehLegs`, `NodeProfileMultiObjective`) is an
  opaque external collaborator: its operations are parameters of the
  embedded functions.
* Stop identifiers are nonnegative and modelled as `Nat`; times and
  distances are `Int`.
-/

namespace Compute

/-- Python exception classes distinguished by the orchestration code. -/
inductive PyError where
  | assertionError
  | typeError
  | indexError
  deriving DecidableEq, Repr

/-- Model of a Python/numpy float as observed by the statistics invariant:
NaN, positive infinity, negative infinity, or a finite value (carried as a
rational, since the code only compares against 0). -/
inductive PFloat where
  | nan
  | inf
  | ninf
  | fin (q : ℚ)
  deriving DecidableEq, Repr

/-- Result of `numpy.isnan` on a single float value. -/
def PFloat.isnan : PFloat → Bool
  | .nan => true
  | _ => false

/-- Result of `numpy.isinf` on a single float value (true for both
infinities). -/
def PFloat.isinf : PFloat → Bool
  | .inf => true
  | .ninf => true
  | _ => false

/-- Result of `value >= 0` in IEEE float semantics: false for NaN and for
negative values including negative infinity. -/
def PFloat.geZero : PFloat → Bool
  | .nan => false
  | .inf => true
  | .ninf => false
  | .fin q => decide (0 ≤ q)

/-- Embeds `_assert_results_are_positive_or_infs_or_nans` (compute.py:296)
applied to the one-element array `numpy.array([v])` it is always called with
(compute.py:291): the assert condition `(is_nan or is_inf or
is_not_negative).all()`, which for a one-element array is the elementwise
disjunction.  `true` means the assert passes, `false` means an
`AssertionError` is raised. -/
def assert_results_are_positive_or_infs_or_nans (v : PFloat) : Bool :=
  v.isnan || v.isinf || v.geZero

/-- Embeds `gtfspy.routing.connection.Connection`: one scheduled
vehicle-trip hop (external record type; only constructed and read
field-wise by the code under study). -/
structure Connection where
  departure_stop : Nat
  arrival_stop : Nat
  departure_time : Int
  arrival_time : Int
  trip_id : Int
  seq : Int
  deriving DecidableEq, Repr

/-- One parsed row of the transit-connections CSV (header: from_stop_I,
to_stop_I, dep_time_ut, arr_time_ut, route_type, trip_I, seq, route_I;
positions 0, 1, 2, 3, 5, 6 are consumed). -/
structure ConnRow where
  from_stop_I : Nat
  to_stop_I : Nat
  dep_time_ut : Int
  arr_time_ut : Int
  route_type : Int
  trip_I : Int
  seq : Int
  route_I : Int
  deriving DecidableEq, Repr

/-- The `Connection(...)` construction on compute.py:107-108. -/
def connOfRow (r : ConnRow) : Connection :=
  { departure_stop := r.from_stop_I, arrival_stop := r.to_stop_I,
    departure_time := r.dep_time_ut, arrival_time := r.arr_time_ut,
    trip_id := r.trip_I, seq := r.seq }

/-- The connection list built by the reading loop of `read_connections_csv`
(compute.py:101-108) before sorting: rows whose departure time lies in the
inclusive window, in file order. -/
def windowConnections (rows : List ConnRow)
    (routing_start_time_dep routing_end_time_dep : Int) : List Connection :=
  (rows.filter fun r =>
      decide (routing_start_time_dep ≤ r.dep_time_ut) &&
      decide (r.dep_time_ut ≤ routing_end_time_dep)).map connOfRow

/-- The ordering used on compute.py:109, `sorted(connections, key=lambda
conn: -conn.departure_time)`: `a` may precede `b` iff `a`'s departure time
is not smaller. -/
def connDepGE (a b : Connection) : Prop :=
  b.departure_time ≤ a.departure_time

instance : DecidableRel connDepGE := fun a b =>
  inferInstanceAs (Decidable (b.departure_time ≤ a.departure_time))

instance : IsTotal Connection connDepGE :=
  ⟨fun a b => le_total b.departure_time a.departure_time⟩

instance : IsTrans Connection connDepGE :=
  ⟨fun _ _ _ h1 h2 => le_trans h2 h1⟩

/-- Embeds `read_connections_csv` (compute.py:84-110): filter rows by the
inclusive departure-time window, build `Connection` values, and sort by
departure time descending.  Python's `sorted` is a stable sort, and the
output of a stable sort is determined by the key order and the input order,
so it is embedded as the stable `List.insertionSort`. -/
def read_connections_csv (rows : List ConnRow)
    (routing_start_time_dep routing_end_time_dep : Int) : List Connection :=
  List.insertionSort connDepGE
    (windowConnections rows routing_start_time_dep routing_end_time_dep)

/-- One parsed row of the transfers CSV (header: from_stop_I, to_stop_I, d,
d_walk; positions 0, 1, 3 are consumed). -/
structure TransferRow where
  from_stop_I : Nat
  to_stop_I : Nat
  d : Int
  d_walk : Int
  deriving DecidableEq, Repr

/-- Embeds `read_transfers_csv` (compute.py:123-139): the `networkx.Graph`
is modelled as the list of `add_edge` calls performed (edge endpoints plus
the `d_walk` attribute), in file order. -/
def read_transfers_csv (rows : List TransferRow) (max_walk_distance : Int) :
    List (Nat × Nat × Int) :=
  (rows.filter fun r => decide (r.d_walk ≤ max_walk_distance)).map
    fun r => (r.from_stop_I, r.to_stop_I, r.d_walk)

/-- Undirected edge existence in the modelled `networkx.Graph`. -/
def has_edge (net : List (Nat × Nat × Int)) (u v : Nat) : Bool :=
  net.any fun e =>
    (decide (e.1 = u) && decide (e.2.1 = v)) ||
    (decide (e.1 = v) && decide (e.2.1 = u))

/-- Decimal digit characters, as produced by Python `str` on ints. -/
def digitChar : Nat → Char
  | 0 => '0'
  | 1 => '1'
  | 2 => '2'
  | 3 => '3'
  | 4 => '4'
  | 5 => '5'
  | 6 => '6'
  | 7 => '7'
  | 8 => '8'
  | _ => '9'

/-- Embeds Python `str` on a nonnegative int: the decimal numeral, most
significant digit first, as a character list. -/
def natStr (n : Nat) : List Char :=
  if _h : n < 10 then [digitChar n]
  else natStr (n / 10) ++ [digitChar (n % 10)]
termination_by n
decreasing_by exact Nat.div_lt_self (by omega) (by omega)

/-- Numeric value of a decimal digit character. -/
def digitVal (c : Char) : Nat := c.toNat - '0'.toNat

/-- Value of a decimal numeral, used to invert `natStr`. -/
def decVal (l : List Char) : Nat :=
  l.foldl (fun a c => 10 * a + digitVal c) 0

/-- Embeds `target_list_to_str` (compute.py:21-23):
`"_".join([str(target) for target in targets])`, with Python strings as
character lists. -/
def target_list_to_str (targets : List Nat) : List Char :=
  List.intercalate ['_'] (targets.map natStr)

/-- Association-list lookup, used for the stop-to-profile dict and for the
file store (first match wins, like the most recently written file). -/
def alookup {κ β : Type} [DecidableEq κ] (k : κ) : List (κ × β) → Option β
  | [] => none
  | (k', v) :: rest => if k = k' then some v else alookup k rest

/-- Writing a file (`pickle.dump(..., open(fname, 'wb'))`): the new content
shadows any previous file of the same name. -/
def writeFile {β : Type} (k : List Char) (v : β) (fs : List (List Char × β)) :
    List (List Char × β) :=
  (k, v) :: fs

/-- Embeds `get_profile_data` (compute.py:26-43).  `targets = None` defaults
to `[115]`; the pickle file is named from the target fingerprint; with
`recompute = False` an existing file is loaded, otherwise
`_compute_profile_data` runs — abstracted as the function `compute`, applied
to the resolved target list since the rest of its inputs are fixed here —
and the result is stored.  The returned triple is (result, updated file
store, whether the compute function was invoked). -/
def get_profile_data {β : Type} (targets? : Option (List Nat)) (recompute : Bool)
    (compute : List Nat → β) (fs : List (List Char × β)) :
    β × List (List Char × β) × Bool :=
  let targets := targets?.getD [115]
  let fname := ("node_profile_").data ++ target_list_to_str targets ++ (".pickle").data
  match recompute, alookup fname fs with
  | false, some blob => (blob, fs, false)
  | _, _ =>
    let profiles := compute targets
    (profiles, writeFile fname profiles fs, true)

/-- Embeds `get_node_profile_statistics` (compute.py:46-63).
`recompute_profiles = True` forces `recompute = True`; the compute function
`_compute_node_profile_statistics` is abstracted as `computeStats`, applied
to the arguments the source passes it. -/
def get_node_profile_statistics {γ : Type} (targets : List Nat)
    (recompute recompute_profiles : Bool)
    (computeStats : List Nat → Bool → γ) (fs : List (List Char × γ)) :
    γ × List (List Char × γ) × Bool :=
  let fname := ("node_profile_statistics_").data ++ target_list_to_str targets
    ++ (".pickle").data
  let recompute := if recompute_profiles then true else recompute
  match recompute, alookup fname fs with
  | false, some blob => (blob, fs, false)
  | _, _ =>
    let d := computeStats targets recompute_profiles
    (d, writeFile fname d fs, true)

/-- The parameter dict received by `_get_new_csp_with_default_settings`:
each recognized option is either set or missing/None (the source treats
`key not in params` and `params[key] is None` alike for the routing times,
and the callers in this file always populate the remaining keys). -/
structure RawParams where
  routing_start_time_dep : Option Int
  routing_end_time_dep : Option Int
  max_walk_distance : Option Int
  track_time : Option Bool
  track_vehicle_legs : Option Bool
  transfer_margin : Option Int
  walking_speed : Option ℚ
  deriving DecidableEq, Repr

/-- The parameter dict after default resolution (the `targets` entry that
`_compute_profile_data` also stores in it is carried separately). -/
structure ResolvedParams where
  routing_start_time_dep : Int
  routing_end_time_dep : Int
  max_walk_distance : Int
  track_time : Bool
  track_vehicle_legs : Bool
  transfer_margin : Int
  walking_speed : ℚ
  deriving DecidableEq, Repr

/-- The module-level constants imported from `settings` (external
configuration, not part of the source under study). -/
structure Settings where
  routing_start_time_dep : Int
  routing_end_time_dep : Int
  deriving DecidableEq, Repr

/-- The argument bundle handed to the `MultiObjectivePseudoCSAProfiler`
constructor (compute.py:189-198); the engine itself is external. -/
structure CSPSetup where
  connections : List Connection
  targets : List Nat
  walk_network : List (Nat × Nat × Int)
  walk_speed : ℚ
  track_vehicle_legs : Bool
  track_time : Bool
  transfer_margin : Int
  deriving DecidableEq, Repr

/-- Embeds `_get_new_csp_with_default_settings` (compute.py:142-199):
resolve the routing window from the settings constants, read the
connections, default missing targets to the origin stop of the first read
connection (`connections[0]` raises `IndexError` on an empty list), fill the
remaining recognized options with their defaults, read the transfer graph,
and assemble the engine construction arguments together with the resolved
parameter dict. -/
def get_new_csp_with_default_settings (connRows : List ConnRow)
    (transferRows : List TransferRow) (st : Settings)
    (targets? : Option (List Nat)) (params : RawParams) :
    Except PyError (CSPSetup × ResolvedParams) :=
  let start := params.routing_start_time_dep.getD st.routing_start_time_dep
  let stop := params.routing_end_time_dep.getD st.routing_end_time_dep
  let connections := read_connections_csv connRows start stop
  let targetsE : Except PyError (List Nat) :=
    match targets? with
    | some ts => .ok ts
    | none =>
      match connections with
      | [] => .error .indexError
      | c :: _ => .ok [c.departure_stop]
  match targetsE with
  | .error e => .error e
  | .ok targets =>
    let mwd := params.max_walk_distance.getD 1000
    let net := read_transfers_csv transferRows mwd
    let tt := params.track_time.getD true
    let tvl := params.track_vehicle_legs.getD true
    let tm := params.transfer_margin.getD 180
    let ws := params.walking_speed.getD (70 / 60 : ℚ)
    .ok
      ({ connections := connections, targets := targets, walk_network := net,
         walk_speed := ws, track_vehicle_legs := tvl, track_time := tt,
         transfer_margin := tm },
       { routing_start_time_dep := start, routing_end_time_dep := stop,
         max_walk_distance := mwd, track_time := tt,
         track_vehicle_legs := tvl, transfer_margin := tm,
         walking_speed := ws })

/-- The Python default value of the `targets` argument of
`_compute_profile_data` (compute.py:202): the fixed list `[115]`. -/
def compute_profile_data_default_targets : List Nat := [115]

/-- Embeds `_compute_profile_data` (compute.py:202-252), parametric in the
external engine operations: with no existing profiler a new one is built by
`_get_new_csp_with_default_settings` (the targets and the parameter dict
with `max_walk_distance = 1000`, `walking_speed = 70/60`,
`transfer_margin = 180` and the caller's tracking flags and routing times
are passed through) and constructed by `mkCSP`; an existing profiler is
retargeted by `resetCSP`.  `runCSP` then produces the per-stop profile dict
(`csp.run(); dict(csp.stop_profiles)`) and the updated profiler.  Engine
operations may raise (gtfspy code contains assertions).  The `params` entry
of the returned dict is not modelled field-by-field; no property below
depends on it. -/
def compute_profile_data {α ε : Type}
    (mkCSP : CSPSetup → Except PyError ε)
    (resetCSP : ε → List Nat → Except PyError ε)
    (runCSP : ε → Except PyError (List (Nat × α) × ε))
    (connRows : List ConnRow) (transferRows : List TransferRow) (st : Settings)
    (track_vehicle_legs track_time : Bool)
    (routing_start_time_dep routing_end_time_dep : Option Int)
    (targets : List Nat) (csp? : Option ε) :
    Except PyError (List (Nat × α) × ε) :=
  match csp? with
  | none =>
    match get_new_csp_with_default_settings connRows transferRows st
        (some targets)
        { routing_start_time_dep := routing_start_time_dep,
          routing_end_time_dep := routing_end_time_dep,
          max_walk_distance := some 1000,
          track_time := some track_time,
          track_vehicle_legs := some track_vehicle_legs,
          transfer_margin := some 180,
          walking_speed := some (70 / 60 : ℚ) } with
    | .error e => .error e
    | .ok (cfg, _) =>
      match mkCSP cfg with
      | .error e => .error e
      | .ok csp => runCSP csp
  | some csp =>
    match resetCSP csp targets with
    | .error e => .error e
    | .ok csp2 => runCSP csp2

/-- Embeds the inner loop of `__compute_profile_stats_from_profiles`
(compute.py:286-292) for one stop: apply each registered observable method
to the profile's analyzer (analyzer construction and the methods are
external gtfspy code, abstracted as the composed functions in `methods`; a
Python method may return `None`, modelled as `Option PFloat`).  A `None`
value is first printed (`print(observable_name, stop_I)`) and then crashes
the invariant check, since `numpy.isnan` on the one-element object array
`numpy.array([None])` raises `TypeError`; a float value failing the
non-negativity invariant raises `AssertionError`.  Returns the values
appended for this stop (or the first uncaught exception) together with the
observable names printed by the diagnostic. -/
def stats_for_stop {α : Type} (methods : List (String × (α → Option PFloat)))
    (profile : α) : Except PyError (List (Option PFloat)) × List String :=
  match methods with
  | [] => (.ok [], [])
  | (name, m) :: rest =>
    match m profile with
    | none => (.error .typeError, [name])
    | some f =>
      if assert_results_are_positive_or_infs_or_nans f then
        match stats_for_stop rest profile with
        | (.error e, logs) => (.error e, logs)
        | (.ok vs, logs) => (.ok (some f :: vs), logs)
      else (.error .assertionError, [])

/-- Embeds the outer loop of `__compute_profile_stats_from_profiles`
(compute.py:278-292): iterate the node-table stop ids in order; a stop
missing from the profile dict (`KeyError`) gets a freshly constructed,
finalized empty profile (`NodeProfileMultiObjective(); profile.finalize()`,
external, abstracted as `emptyProfile`).  Returns the per-stop rows of
observable values — the source appends exactly these values column-wise
into `observable_name_to_data` — plus the `(observable, stop)` diagnostics
printed, and stops at the first uncaught exception. -/
def stats_for_stops {α : Type} (methods : List (String × (α → Option PFloat)))
    (emptyProfile : α) (profile_data : List (Nat × α)) :
    List Nat → Except PyError (List (List (Option PFloat))) × List (String × Nat)
  | [] => (.ok [], [])
  | s :: ss =>
    let profile := (alookup s profile_data).getD emptyProfile
    match stats_for_stop methods profile with
    | (.error e, logs) => (.error e, logs.map fun n => (n, s))
    | (.ok row, logs) =>
      match stats_for_stops methods emptyProfile profile_data ss with
      | (.error e, logs2) => (.error e, (logs.map fun n => (n, s)) ++ logs2)
      | (.ok rows, logs2) => (.ok (row :: rows), (logs.map fun n => (n, s)) ++ logs2)

/-- Embeds `__compute_profile_stats_from_profiles` (compute.py:260-293): the
returned `observable_name_to_data` dict maps each observable name to the
per-stop value column, i.e. the transpose of the per-stop rows. -/
def compute_profile_stats_from_profiles {α : Type}
    (methods : List (String × (α → Option PFloat))) (emptyProfile : α)
    (profile_data : List (Nat × α)) (stops : List Nat) :
    Except PyError (List (String × List (Option PFloat))) × List (String × Nat) :=
  match stats_for_stops methods emptyProfile profile_data stops with
  | (.error e, logs) => (.error e, logs)
  | (.ok rows, logs) => (.ok ((methods.map Prod.fst).zip rows.transpose), logs)

/-- Embeds the loop body of `compute_all_to_all_profile_statistics_with_defaults`
(compute.py:323-340), threading the reused profiler (`csp`, initially
`None`) through the targets.  Only `AssertionError` raised by
`_compute_profile_data([target_I], csp=csp, return_profiler=True)` is caught
(`continue`, keeping the previous profiler); any other exception from it
propagates.  The statistics reduction and the result-file write happen
OUTSIDE the `try`, so an exception raised there propagates and aborts the
batch.  Returns the per-target result files written, in order (the stored
`target`/`params` dict entries beyond the statistics are not modelled), and
the exception that aborted the batch, if any. -/
def compute_all_to_all_loop {α ε : Type}
    (mkCSP : CSPSetup → Except PyError ε)
    (resetCSP : ε → List Nat → Except PyError ε)
    (runCSP : ε → Except PyError (List (Nat × α) × ε))
    (connRows : List ConnRow) (transferRows : List TransferRow) (st : Settings)
    (methods : List (String × (α → Option PFloat))) (emptyProfile : α)
    (node_stops : List Nat) :
    Option ε → List Nat →
      List (Nat × List (String × List (Option PFloat))) × Option PyError
  | _, [] => ([], none)
  | cs, t :: ts =>
    match compute_profile_data mkCSP resetCSP runCSP connRows transferRows st
        true true none none [t] cs with
    | .error .assertionError =>
      compute_all_to_all_loop mkCSP resetCSP runCSP connRows transferRows st
        methods emptyProfile node_stops cs ts
    | .error e => ([], some e)
    | .ok (profiles, csN) =>
      match (compute_profile_stats_from_profiles methods emptyProfile profiles
          node_stops).1 with
      | .error e => ([], some e)
      | .ok table =>
        match compute_all_to_all_loop mkCSP resetCSP runCSP connRows
            transferRows st methods emptyProfile node_stops (some csN) ts with
        | (files, err) => ((t, table) :: files, err)

/-- Embeds `compute_all_to_all_profile_statistics_with_defaults`
(compute.py:318-340): `target_Is = None` defaults to the node-table stop
ids, and the loop starts with no profiler instance. -/
def compute_all_to_all_profile_statistics_with_defaults {α ε : Type}
    (mkCSP : CSPSetup → Except PyError ε)
    (resetCSP : ε → List Nat → Except PyError ε)
    (runCSP : ε → Except PyError (List (Nat × α) × ε))
    (connRows : List ConnRow) (transferRows : List TransferRow) (st : Settings)
    (methods : List (String × (α → Option PFloat))) (emptyProfile : α)
    (node_stops : List Nat) (target_Is? : Option (List Nat)) :
    List (Nat × List (String × List (Option PFloat))) × Option PyError :=
  compute_all_to_all_loop mkCSP resetCSP runCSP connRows transferRows st
    methods emptyProfile node_stops none (target_Is?.getD node_stops)

/-! ## Theorems -/

/-- C9: for every source of transfer records and every maximum walk distance
`d`, the transfer-graph reader produces an undirected graph in which an edge
between two stop ids `u` and `v` exists iff some transfer row joins `u` and
`v` (in either direction, self-loop rows passed through like any other edge)
with walking distance `d_walk ≤ d`; rows with `d_walk > d` contribute no
edge. -/
theorem transfer_graph_edge_iff_walk_le (rows : List TransferRow)
    (d : Int) (u v : Nat) :
    has_edge (read_transfers_csv rows d) u v = true ↔
      ∃ r ∈ rows, r.d_walk ≤ d ∧
        ((r.from_stop_I = u ∧ r.to_stop_I = v) ∨
         (r.from_stop_I = v ∧ r.to_stop_I = u)) := by
  simp only [has_edge, read_transfers_csv, List.any_eq_true, List.mem_map,
    List.mem_filter, decide_eq_true_eq, Bool.or_eq_true, Bool.and_eq_true]
  constructor
  · rintro ⟨e, ⟨r, ⟨hr, hle⟩, rfl⟩, huv⟩
    exact ⟨r, hr, hle, huv⟩
  · rintro ⟨r, hr, hle, huv⟩
    exact ⟨(r.from_stop_I, r.to_stop_I, r.d_walk), ⟨r, ⟨hr, hle⟩, rfl⟩, huv⟩

theorem digitChar_ne_underscore (d : Nat) : digitChar d ≠ '_' := by
  match d with
  | 0 | 1 | 2 | 3 | 4 | 5 | 6 | 7 | 8 => decide
  | _ + 9 =>
    show ('9' : Char) ≠ '_'
    decide

theorem digitVal_digitChar (d : Nat) (h : d < 10) : digitVal (digitChar d) = d := by
  match d, h with
  | 0, _ | 1, _ | 2, _ | 3, _ | 4, _
  | 5, _ | 6, _ | 7, _ | 8, _ | 9, _ => decide
  | _ + 10, h => exact absurd h (by omega)

theorem mem_natStr_ne_underscore (n : Nat) : ∀ c ∈ natStr n, c ≠ '_' := by
  induction n using Nat.strong_induction_on with
  | _ n ih =>
    rw [natStr]
    split
    · intro c hc
      rw [List.mem_singleton] at hc
      subst hc
      exact digitChar_ne_underscore n
    · intro c hc
      rw [List.mem_append] at hc
      rcases hc with hc | hc
      · exact ih (n / 10) (Nat.div_lt_self (by omega) (by omega)) c hc
      · rw [List.mem_singleton] at hc
        subst hc
        exact digitChar_ne_underscore _

theorem decVal_natStr (n : Nat) : decVal (natStr n) = n := by
  induction n using Nat.strong_induction_on with
  | _ n ih =>
    rw [natStr]
    split
    · next h =>
      simp [decVal, digitVal_digitChar n h]
    · next h =>
      have ihd := ih (n / 10) (Nat.div_lt_self (by omega) (by omega))
      rw [decVal, List.foldl_append]
      simp only [List.foldl_cons, List.foldl_nil]
      rw [show List.foldl (fun a c => 10 * a + digitVal c) 0 (natStr (n / 10)) =
            decVal (natStr (n / 10)) from rfl,
        ihd, digitVal_digitChar _ (Nat.mod_lt _ (by omega))]
      omega

theorem natStr_injective : Function.Injective natStr := fun a b h => by
  have hv := congrArg decVal h
  rwa [decVal_natStr, decVal_natStr] at hv

/-- C4: the cache fingerprint is the deterministic underscore-join of the
stringified target ids in the order given, with no canonical sort applied;
hence any two target lists that are permutations of each other but not
identical as sequences have different fingerprints, and so address
different cache files. -/
theorem fingerprint_distinct_for_distinct_permutations (l1 l2 : List Nat)
    (hperm : l1.Perm l2) (hne : l1 ≠ l2) :
    target_list_to_str l1 ≠ target_list_to_str l2 := by
  intro heq
  apply hne
  cases l1 with
  | nil =>
    exact hperm.nil_eq
  | cons a as =>
    cases l2 with
    | nil =>
      exact absurd hperm.symm.nil_eq (by simp)
    | cons b bs =>
      have hx1 : ∀ l ∈ (a :: as).map natStr, '_' ∉ l := by
        intro l hl
        rw [List.mem_map] at hl
        obtain ⟨n, _, rfl⟩ := hl
        intro hmem
        exact mem_natStr_ne_underscore n '_' hmem rfl
      have hx2 : ∀ l ∈ (b :: bs).map natStr, '_' ∉ l := by
        intro l hl
        rw [List.mem_map] at hl
        obtain ⟨n, _, rfl⟩ := hl
        intro hmem
        exact mem_natStr_ne_underscore n '_' hmem rfl
      have e1 := List.splitOn_intercalate ((a :: as).map natStr) '_' hx1
        (by simp)
      have e2 := List.splitOn_intercalate ((b :: bs).map natStr) '_' hx2
        (by simp)
      have hmaps : (a :: as).map natStr = (b :: bs).map natStr := by
        rw [← e1, ← e2]
        unfold target_list_to_str at heq
        rw [heq]
      exact List.map_injective_iff.mpr natStr_injective hmaps

/-- Witness for C4 at the concrete input from the spec's flagged example:
`[1, 2]` and `[2, 1]` are distinct permutations and get different cache
keys. -/
theorem fingerprint_distinct_witness :
    ([1, 2] : List Nat).Perm [2, 1] ∧ ([1, 2] : List Nat) ≠ [2, 1] ∧
      target_list_to_str [1, 2] ≠ target_list_to_str [2, 1] :=
  ⟨by decide, by decide,
    fingerprint_distinct_for_distinct_permutations [1, 2] [2, 1]
      (by decide) (by decide)⟩

theorem assert_check_false_iff (v : PFloat) :
    assert_results_are_positive_or_infs_or_nans v = false ↔
      ∃ q : ℚ, v = PFloat.fin q ∧ q < 0 := by
  cases v <;>
    simp [assert_results_are_positive_or_infs_or_nans, PFloat.isnan,
      PFloat.isinf, PFloat.geZero, not_le]

theorem stats_for_stop_cons_none {α : Type} (name : String)
    (m : α → Option PFloat) (rest : List (String × (α → Option PFloat)))
    (profile : α) (h : m profile = none) :
    stats_for_stop ((name, m) :: rest) profile =
      (.error .typeError, [name]) := by
  simp [stats_for_stop, h]

theorem stats_for_stop_cons_bad {α : Type} (name : String)
    (m : α → Option PFloat) (rest : List (String × (α → Option PFloat)))
    (profile : α) (f : PFloat) (h : m profile = some f)
    (hf : assert_results_are_positive_or_infs_or_nans f = false) :
    stats_for_stop ((name, m) :: rest) profile =
      (.error .assertionError, []) := by
  simp [stats_for_stop, h, hf]

theorem stats_for_stop_cons_good_err {α : Type} (name : String)
    (m : α → Option PFloat) (rest : List (String × (α → Option PFloat)))
    (profile : α) (f : PFloat) (e : PyError) (logs : List String)
    (h : m profile = some f)
    (hf : assert_results_are_positive_or_infs_or_nans f = true)
    (hrest : stats_for_stop rest profile = (.error e, logs)) :
    stats_for_stop ((name, m) :: rest) profile = (.error e, logs) := by
  simp [stats_for_stop, h, hf, hrest]

theorem stats_for_stop_cons_good_ok {α : Type} (name : String)
    (m : α → Option PFloat) (rest : List (String × (α → Option PFloat)))
    (profile : α) (f : PFloat) (vs : List (Option PFloat)) (logs : List String)
    (h : m profile = some f)
    (hf : assert_results_are_positive_or_infs_or_nans f = true)
    (hrest : stats_for_stop rest profile = (.ok vs, logs)) :
    stats_for_stop ((name, m) :: rest) profile = (.ok (some f :: vs), logs) := by
  simp [stats_for_stop, h, hf, hrest]

theorem stats_for_stops_cons_err {α : Type}
    (methods : List (String × (α → Option PFloat))) (emptyProfile : α)
    (pd : List (Nat × α)) (s : Nat) (ss : List Nat) (e : PyError)
    (logs : List String)
    (h : stats_for_stop methods ((alookup s pd).getD emptyProfile) =
      (.error e, logs)) :
    stats_for_stops methods emptyProfile pd (s :: ss) =
      (.error e, logs.map fun n => (n, s)) := by
  simp [stats_for_stops, h]

theorem stats_for_stops_cons_ok_err {α : Type}
    (methods : List (String × (α → Option PFloat))) (emptyProfile : α)
    (pd : List (Nat × α)) (s : Nat) (ss : List Nat)
    (row : List (Option PFloat)) (logs : List String) (e : PyError)
    (logs2 : List (String × Nat))
    (h : stats_for_stop methods ((alookup s pd).getD emptyProfile) =
      (.ok row, logs))
    (h2 : stats_for_stops methods emptyProfile pd ss = (.error e, logs2)) :
    stats_for_stops methods emptyProfile pd (s :: ss) =
      (.error e, (logs.map fun n => (n, s)) ++ logs2) := by
  simp [stats_for_stops, h, h2]

theorem stats_for_stops_cons_ok_ok {α : Type}
    (methods : List (String × (α → Option PFloat))) (emptyProfile : α)
    (pd : List (Nat × α)) (s : Nat) (ss : List Nat)
    (row : List (Option PFloat)) (logs : List String)
    (rows : List (List (Option PFloat))) (logs2 : List (String × Nat))
    (h : stats_for_stop methods ((alookup s pd).getD emptyProfile) =
      (.ok row, logs))
    (h2 : stats_for_stops methods emptyProfile pd ss = (.ok rows, logs2)) :
    stats_for_stops methods emptyProfile pd (s :: ss) =
      (.ok (row :: rows), (logs.map fun n => (n, s)) ++ logs2) := by
  simp [stats_for_stops, h, h2]

theorem stats_for_stop_ok_or_assert {α : Type}
    (methods : List (String × (α → Option PFloat))) (profile : α)
    (hnone : ∀ p ∈ methods, p.2 profile ≠ none) :
    (∃ vs logs, stats_for_stop methods profile = (.ok vs, logs)) ∨
      ∃ logs, stats_for_stop methods profile = (.error .assertionError, logs) := by
  induction methods with
  | nil => exact .inl ⟨[], [], rfl⟩
  | cons hd rest ih =>
    obtain ⟨name, m⟩ := hd
    have hm := hnone (name, m) (List.mem_cons_self _ _)
    rcases hv : m profile with _ | f
    · exact absurd hv hm
    by_cases hok : assert_results_are_positive_or_infs_or_nans f = true
    · rcases ih (fun p hp => hnone p (List.mem_cons_of_mem _ hp)) with
        ⟨vs, logs, hvs⟩ | ⟨logs, herr⟩
      · exact .inl ⟨some f :: vs, logs,
          stats_for_stop_cons_good_ok name m rest profile f vs logs hv hok hvs⟩
      · exact .inr ⟨logs,
          stats_for_stop_cons_good_err name m rest profile f _ logs hv hok herr⟩
    · exact .inr ⟨[],
        stats_for_stop_cons_bad name m rest profile f hv
          (by simpa using hok)⟩

theorem stats_for_stop_error_iff {α : Type}
    (methods : List (String × (α → Option PFloat))) (profile : α)
    (hnone : ∀ p ∈ methods, p.2 profile ≠ none) :
    (stats_for_stop methods profile).1 = .error .assertionError ↔
      ∃ p ∈ methods, ∃ q : ℚ, p.2 profile = some (PFloat.fin q) ∧ q < 0 := by
  induction methods with
  | nil => simp [stats_for_stop]
  | cons hd rest ih =>
    obtain ⟨name, m⟩ := hd
    have hm := hnone (name, m) (List.mem_cons_self _ _)
    have ihr := ih fun p hp => hnone p (List.mem_cons_of_mem _ hp)
    rcases hv : m profile with _ | f
    · exact absurd hv hm
    by_cases hok : assert_results_are_positive_or_infs_or_nans f = true
    · have hnotbad : ¬ ∃ q : ℚ, f = PFloat.fin q ∧ q < 0 := by
        rw [← assert_check_false_iff]
        simp [hok]
      rcases hrest : stats_for_stop rest profile with ⟨r, logs⟩
      rw [hrest] at ihr
      rcases r with e | vs
      · rw [stats_for_stop_cons_good_err name m rest profile f e logs hv hok
          hrest]
        simp only at ihr ⊢
        rw [ihr]
        constructor
        · rintro ⟨p, hp, hq⟩
          exact ⟨p, List.mem_cons_of_mem _ hp, hq⟩
        · rintro ⟨p, hp, q, hpq, hq⟩
          rcases List.mem_cons.mp hp with rfl | hp
          · rw [show (name, m).2 profile = m profile from rfl, hv] at hpq
            exact absurd ⟨q, by injection hpq, hq⟩ hnotbad
          · exact ⟨p, hp, q, hpq, hq⟩
      · rw [stats_for_stop_cons_good_ok name m rest profile f vs logs hv hok
          hrest]
        simp only at ihr ⊢
        constructor
        · intro h
          exact absurd h (by simp)
        · rintro ⟨p, hp, q, hpq, hq⟩
          rcases List.mem_cons.mp hp with rfl | hp
          · rw [show (name, m).2 profile = m profile from rfl, hv] at hpq
            exact absurd ⟨q, by injection hpq, hq⟩ hnotbad
          · exact absurd (ihr.mpr ⟨p, hp, q, hpq, hq⟩) (by simp)
    · rw [stats_for_stop_cons_bad name m rest profile f hv (by simpa using hok)]
      simp only
      constructor
      · intro _
        rcases (assert_check_false_iff f).mp (by simpa using hok) with
          ⟨q, rfl, hq⟩
        exact ⟨(name, m), List.mem_cons_self _ _, q, hv, hq⟩
      · intro _
        trivial

theorem stats_for_stops_error_iff {α : Type}
    (methods : List (String × (α → Option PFloat))) (emptyProfile : α)
    (pd : List (Nat × α)) (stops : List Nat)
    (hnone : ∀ s ∈ stops, ∀ p ∈ methods,
      p.2 ((alookup s pd).getD emptyProfile) ≠ none) :
    (stats_for_stops methods emptyProfile pd stops).1 = .error .assertionError ↔
      ∃ s ∈ stops, ∃ p ∈ methods, ∃ q : ℚ,
        p.2 ((alookup s pd).getD emptyProfile) = some (PFloat.fin q) ∧ q < 0 := by
  induction stops with
  | nil => simp [stats_for_stops]
  | cons s ss ih =>
    have hs := hnone s (List.mem_cons_self _ _)
    have ihr := ih fun t ht => hnone t (List.mem_cons_of_mem _ ht)
    rcases stats_for_stop_ok_or_assert methods _ hs with
      ⟨vs, logs, hvs⟩ | ⟨logs, herr⟩
    · have hnotbad : ¬ ∃ p ∈ methods, ∃ q : ℚ,
          p.2 ((alookup s pd).getD emptyProfile) = some (PFloat.fin q) ∧ q < 0 := by
        rw [← stats_for_stop_error_iff methods _ hs, hvs]
        simp
      rcases hss : stats_for_stops methods emptyProfile pd ss with ⟨r2, logs2⟩
      rw [hss] at ihr
      rcases r2 with e | rows
      · rw [stats_for_stops_cons_ok_err methods emptyProfile pd s ss vs logs e
          logs2 hvs hss]
        simp only at ihr ⊢
        rw [ihr]
        constructor
        · rintro ⟨t, ht, hrest⟩
          exact ⟨t, List.mem_cons_of_mem _ ht, hrest⟩
        · rintro ⟨t, ht, hrest⟩
          rcases List.mem_cons.mp ht with rfl | ht
          · exact absurd hrest hnotbad
          · exact ⟨t, ht, hrest⟩
      · rw [stats_for_stops_cons_ok_ok methods emptyProfile pd s ss vs logs
          rows logs2 hvs hss]
        simp only at ihr ⊢
        constructor
        · intro h
          exact absurd h (by simp)
        · rintro ⟨t, ht, hrest⟩
          rcases List.mem_cons.mp ht with rfl | ht
          · exact absurd hrest hnotbad
          · exact absurd (ihr.mpr ⟨t, ht, hrest⟩) (by simp)
    · rw [stats_for_stops_cons_err methods emptyProfile pd s ss _ logs herr]
      simp only
      constructor
      · intro _
        rcases (stats_for_stop_error_iff methods _ hs).mp (by rw [herr]) with
          ⟨p, hp, hq⟩
        exact ⟨s, List.mem_cons_self _ _, p, hp, hq⟩
      · intro _
        trivial

/-- C2: for every stop and every registered observable, the statistics
reducer raises an assertion-class error iff the produced observable value is
a finite negative number — NaN, infinite and nonnegative values pass the
check — and in the single-target path the error propagates, aborting the
whole per-target reduction (the reduction produces an error outcome, not a
partial table).  The hypothesis excludes Python `None` observable values,
which crash with `TypeError` before the assertion. -/
theorem statistics_invariant_error_iff_finite_negative {α : Type}
    (methods : List (String × (α → Option PFloat))) (emptyProfile : α)
    (profile_data : List (Nat × α)) (stops : List Nat)
    (hnone : ∀ s ∈ stops, ∀ p ∈ methods,
      p.2 ((alookup s profile_data).getD emptyProfile) ≠ none) :
    (∀ v : PFloat, assert_results_are_positive_or_infs_or_nans v = false ↔
        ∃ q : ℚ, v = PFloat.fin q ∧ q < 0) ∧
      ((stats_for_stops methods emptyProfile profile_data stops).1 =
          .error .assertionError ↔
        ∃ s ∈ stops, ∃ p ∈ methods, ∃ q : ℚ,
          p.2 ((alookup s profile_data).getD emptyProfile) =
              some (PFloat.fin q) ∧ q < 0) :=
  ⟨assert_check_false_iff,
    stats_for_stops_error_iff methods emptyProfile profile_data stops hnone⟩

/-- Witness for C2: a synthetic observable producing `-1` makes the
reduction fail with an assertion error. -/
theorem statistics_invariant_witness :
    (∀ s ∈ ([0] : List Nat),
        ∀ p ∈ ([("m", fun (_ : Unit) => some (PFloat.fin (-1)))] :
          List (String × (Unit → Option PFloat))),
        p.2 ((alookup s ([] : List (Nat × Unit))).getD ()) ≠ none) ∧
      (stats_for_stops [("m", fun (_ : Unit) => some (PFloat.fin (-1)))] ()
          ([] : List (Nat × Unit)) [0]).1 = .error .assertionError := by
  have hnone : ∀ s ∈ ([0] : List Nat),
      ∀ p ∈ ([("m", fun (_ : Unit) => some (PFloat.fin (-1)))] :
        List (String × (Unit → Option PFloat))),
      p.2 ((alookup s ([] : List (Nat × Unit))).getD ()) ≠ none := by
    intro s _ p hp
    rw [List.mem_singleton] at hp
    subst hp
    simp
  refine ⟨hnone, ?_⟩
  exact (statistics_invariant_error_iff_finite_negative _ _ _ _ hnone).2.mpr
    ⟨0, by simp, ("m", fun (_ : Unit) => some (PFloat.fin (-1))), by simp,
      -1, rfl, by norm_num⟩

theorem alookup_getD_cons_missing {α : Type} (s : Nat) (emptyProfile : α)
    (pd : List (Nat × α)) (hmiss : alookup s pd = none) (t : Nat) :
    (alookup t ((s, emptyProfile) :: pd)).getD emptyProfile =
      (alookup t pd).getD emptyProfile := by
  by_cases h : t = s
  · subst h
    simp [alookup, hmiss]
  · simp [alookup, h]

theorem stats_for_stops_congr {α : Type}
    (methods : List (String × (α → Option PFloat))) (emptyProfile : α)
    (pd1 pd2 : List (Nat × α))
    (h : ∀ t : Nat,
      (alookup t pd1).getD emptyProfile = (alookup t pd2).getD emptyProfile) :
    ∀ stops, stats_for_stops methods emptyProfile pd1 stops =
      stats_for_stops methods emptyProfile pd2 stops
  | [] => rfl
  | s :: ss => by
    simp only [stats_for_stops, h s,
      stats_for_stops_congr methods emptyProfile pd1 pd2 h ss]

/-- C8: for every stop id absent from the per-stop profile mapping, the
statistics reducer does not fail but substitutes a freshly constructed,
finalized empty profile: the whole reduction is unchanged when the missing
stop is instead explicitly mapped to the finalized empty profile, so such a
stop receives exactly the same observable values (and diagnostics) as a
stop whose profile is an explicitly finalized empty profile. -/
theorem missing_stop_same_as_finalized_empty {α : Type}
    (methods : List (String × (α → Option PFloat))) (emptyProfile : α)
    (profile_data : List (Nat × α)) (s : Nat) (stops : List Nat)
    (hmiss : alookup s profile_data = none) :
    stats_for_stops methods emptyProfile profile_data stops =
      stats_for_stops methods emptyProfile
        ((s, emptyProfile) :: profile_data) stops :=
  stats_for_stops_congr methods emptyProfile _ _
    (fun t =>
      (alookup_getD_cons_missing s emptyProfile profile_data hmiss t).symm)
    stops

/-- Witness for C8: stop 7 is absent from the empty profile mapping and gets
the same statistics as when explicitly mapped to the finalized empty
profile. -/
theorem missing_stop_witness :
    alookup 7 ([] : List (Nat × Unit)) = none ∧
      stats_for_stops [("m", fun (_ : Unit) => some PFloat.inf)] ()
          ([] : List (Nat × Unit)) [7] =
        stats_for_stops [("m", fun (_ : Unit) => some PFloat.inf)] ()
          [(7, ())] [7] :=
  ⟨rfl, missing_stop_same_as_finalized_empty _ () [] 7 [7] rfl⟩

/-- C10 counterexample: a reduction in which the produced observable value
is NaN logs NO diagnostic at all (and succeeds), refuting the claim that a
NaN observable value triggers a logged diagnostic; the source's check on
compute.py:289 is `observable_value is None`, not a NaN test. -/
theorem nan_not_logged_counterexample :
    stats_for_stops [("m", fun (_ : Unit) => some PFloat.nan)] ()
        ([] : List (Nat × Unit)) [0] = (.ok [[some PFloat.nan]], []) := rfl

theorem stats_for_stop_logs_nil {α : Type}
    (methods : List (String × (α → Option PFloat))) (profile : α)
    (hnone : ∀ p ∈ methods, p.2 profile ≠ none) :
    (stats_for_stop methods profile).2 = [] := by
  induction methods with
  | nil => rfl
  | cons hd rest ih =>
    obtain ⟨name, m⟩ := hd
    have hm := hnone (name, m) (List.mem_cons_self _ _)
    rcases hv : m profile with _ | f
    · exact absurd hv hm
    by_cases hok : assert_results_are_positive_or_infs_or_nans f = true
    · have ihr := ih fun p hp => hnone p (List.mem_cons_of_mem _ hp)
      rcases hrest : stats_for_stop rest profile with ⟨r, logs⟩
      rw [hrest] at ihr
      simp only at ihr
      subst ihr
      rcases r with e | vs
      · rw [stats_for_stop_cons_good_err name m rest profile f e [] hv hok
          hrest]
      · rw [stats_for_stop_cons_good_ok name m rest profile f vs [] hv hok
          hrest]
    · rw [stats_for_stop_cons_bad name m rest profile f hv (by simpa using hok)]

theorem stats_for_stop_logs_from_none {α : Type}
    (methods : List (String × (α → Option PFloat))) (profile : α) :
    ∀ n ∈ (stats_for_stop methods profile).2,
      ∃ p ∈ methods, p.1 = n ∧ p.2 profile = none := by
  induction methods with
  | nil =>
    intro n hn
    exact absurd hn (by simp [stats_for_stop])
  | cons hd rest ih =>
    obtain ⟨name, m⟩ := hd
    intro n hn
    rcases hv : m profile with _ | f
    · rw [stats_for_stop_cons_none name m rest profile hv] at hn
      simp only [List.mem_singleton] at hn
      subst hn
      exact ⟨(n, m), List.mem_cons_self _ _, rfl, hv⟩
    · by_cases hok : assert_results_are_positive_or_infs_or_nans f = true
      · rcases hrest : stats_for_stop rest profile with ⟨r, logs⟩
        have hn' : n ∈ logs := by
          rcases r with e | vs
          · rwa [stats_for_stop_cons_good_err name m rest profile f e logs hv
              hok hrest] at hn
          · rwa [stats_for_stop_cons_good_ok name m rest profile f vs logs hv
              hok hrest] at hn
        rcases ih n (by rw [hrest]; exact hn') with ⟨p, hp, hpn, hnone⟩
        exact ⟨p, List.mem_cons_of_mem _ hp, hpn, hnone⟩
      · rw [stats_for_stop_cons_bad name m rest profile f hv
          (by simpa using hok)] at hn
        exact absurd hn (by simp)

theorem stats_for_stops_logs_nil {α : Type}
    (methods : List (String × (α → Option PFloat))) (emptyProfile : α)
    (pd : List (Nat × α)) (stops : List Nat)
    (hnone : ∀ s ∈ stops, ∀ p ∈ methods,
      p.2 ((alookup s pd).getD emptyProfile) ≠ none) :
    (stats_for_stops methods emptyProfile pd stops).2 = [] := by
  induction stops with
  | nil => rfl
  | cons s ss ih =>
    have hs := hnone s (List.mem_cons_self _ _)
    have hrow := stats_for_stop_logs_nil methods _ hs
    have ihr := ih fun t ht => hnone t (List.mem_cons_of_mem _ ht)
    rcases stats_for_stop_ok_or_assert methods _ hs with
      ⟨vs, logs, hvs⟩ | ⟨logs, herr⟩
    · have hlogs : logs = [] := by rw [hvs] at hrow; simpa using hrow
      subst hlogs
      rcases hss : stats_for_stops methods emptyProfile pd ss with ⟨r2, logs2⟩
      have hlogs2 : logs2 = [] := by rw [hss] at ihr; simpa using ihr
      subst hlogs2
      rcases r2 with e | rows
      · rw [stats_for_stops_cons_ok_err methods emptyProfile pd s ss vs [] e
          [] hvs hss]
        rfl
      · rw [stats_for_stops_cons_ok_ok methods emptyProfile pd s ss vs []
          rows [] hvs hss]
        rfl
    · have hlogs : logs = [] := by rw [herr] at hrow; simpa using hrow
      subst hlogs
      rw [stats_for_stops_cons_err methods emptyProfile pd s ss _ [] herr]
      rfl

theorem stats_for_stops_logs_from_none {α : Type}
    (methods : List (String × (α → Option PFloat))) (emptyProfile : α)
    (pd : List (Nat × α)) :
    ∀ stops, ∀ entry ∈ (stats_for_stops methods emptyProfile pd stops).2,
      entry.2 ∈ stops ∧ ∃ p ∈ methods, p.1 = entry.1 ∧
        p.2 ((alookup entry.2 pd).getD emptyProfile) = none := by
  intro stops
  induction stops with
  | nil =>
    intro entry h
    exact absurd h (by simp [stats_for_stops])
  | cons s ss ih =>
    intro entry hentry
    rcases hrow : stats_for_stop methods ((alookup s pd).getD emptyProfile)
      with ⟨r, logs⟩
    have hmap : ∀ hmem : entry ∈ logs.map fun n => (n, s),
        entry.2 ∈ s :: ss ∧ ∃ p ∈ methods, p.1 = entry.1 ∧
          p.2 ((alookup entry.2 pd).getD emptyProfile) = none := by
      intro hmem
      rw [List.mem_map] at hmem
      obtain ⟨n, hn, rfl⟩ := hmem
      rcases stats_for_stop_logs_from_none methods _ n
          (by rw [hrow]; exact hn) with ⟨p, hp, hpn, hpnone⟩
      exact ⟨List.mem_cons_self _ _, p, hp, hpn, hpnone⟩
    rcases r with e | row
    · rw [stats_for_stops_cons_err methods emptyProfile pd s ss e logs hrow]
        at hentry
      exact hmap hentry
    · rcases hss : stats_for_stops methods emptyProfile pd ss with ⟨r2, logs2⟩
      have htail : ∀ hmem : entry ∈ logs2,
          entry.2 ∈ s :: ss ∧ ∃ p ∈ methods, p.1 = entry.1 ∧
            p.2 ((alookup entry.2 pd).getD emptyProfile) = none := by
        intro hmem
        rcases ih entry (by rw [hss]; exact hmem) with ⟨hmem2, rest⟩
        exact ⟨List.mem_cons_of_mem _ hmem2, rest⟩
      rcases r2 with e | rows
      · rw [stats_for_stops_cons_ok_err methods emptyProfile pd s ss row logs
          e logs2 hrow hss] at hentry
        simp only [List.mem_append] at hentry
        rcases hentry with hmem | hmem
        · exact hmap hmem
        · exact htail hmem
      · rw [stats_for_stops_cons_ok_ok methods emptyProfile pd s ss row logs
          rows logs2 hrow hss] at hentry
        simp only [List.mem_append] at hentry
        rcases hentry with hmem | hmem
        · exact hmap hmem
        · exact htail hmem

/-- C10 corrected (amended): during statistics reduction the diagnostic
naming the observable and the stop is tied to a Python `None` observable
value, not to NaN: every logged entry names a method that returned `None`
for that stop's profile, and when no method returns `None` — in particular
when all values are NaN, infinite or finite — nothing is logged at all. -/
theorem diagnostics_logged_for_none_not_nan {α : Type}
    (methods : List (String × (α → Option PFloat))) (emptyProfile : α)
    (profile_data : List (Nat × α)) (stops : List Nat) :
    ((∀ s ∈ stops, ∀ p ∈ methods,
        p.2 ((alookup s profile_data).getD emptyProfile) ≠ none) →
      (stats_for_stops methods emptyProfile profile_data stops).2 = []) ∧
    (∀ entry ∈ (stats_for_stops methods emptyProfile profile_data stops).2,
      entry.2 ∈ stops ∧ ∃ p ∈ methods, p.1 = entry.1 ∧
        p.2 ((alookup entry.2 profile_data).getD emptyProfile) = none) :=
  ⟨stats_for_stops_logs_nil methods emptyProfile profile_data stops,
    stats_for_stops_logs_from_none methods emptyProfile profile_data stops⟩

/-- Witness for the amended C10: a NaN-valued observable logs nothing, and
a `None`-valued observable produces a logged entry naming it and its stop. -/
theorem diagnostics_witness :
    (∀ s ∈ ([0] : List Nat),
        ∀ p ∈ ([("m", fun (_ : Unit) => some PFloat.nan)] :
          List (String × (Unit → Option PFloat))),
        p.2 ((alookup s ([] : List (Nat × Unit))).getD ()) ≠ none) ∧
      (stats_for_stops [("m", fun (_ : Unit) => some PFloat.nan)] ()
          ([] : List (Nat × Unit)) [0]).2 = [] ∧
      (("m", 3) ∈ (stats_for_stops
          [("m", fun (_ : Unit) => (none : Option PFloat))] ()
          ([] : List (Nat × Unit)) [3]).2 ∧
        ("m", 3).2 ∈ [3] ∧
          ∃ p ∈ ([("m", fun (_ : Unit) => (none : Option PFloat))] :
            List (String × (Unit → Option PFloat))),
            p.1 = ("m", 3).1 ∧
              p.2 ((alookup ("m", 3).2 ([] : List (Nat × Unit))).getD ())
                = none) := by
  have hnone : ∀ s ∈ ([0] : List Nat),
      ∀ p ∈ ([("m", fun (_ : Unit) => some PFloat.nan)] :
        List (String × (Unit → Option PFloat))),
      p.2 ((alookup s ([] : List (Nat × Unit))).getD ()) ≠ none := by
    intro s _ p hp
    rw [List.mem_singleton] at hp
    subst hp
    simp
  have hmem : ("m", 3) ∈ (stats_for_stops
      [("m", fun (_ : Unit) => (none : Option PFloat))] ()
      ([] : List (Nat × Unit)) [3]).2 := by
    exact List.mem_singleton.mpr rfl
  refine ⟨hnone, (diagnostics_logged_for_none_not_nan _ _ _ _).1 hnone,
    hmem, ?_⟩
  exact (diagnostics_logged_for_none_not_nan
    [("m", fun (_ : Unit) => (none : Option PFloat))] () [] [3]).2
    ("m", 3) hmem

theorem filter_key_orderedInsert (k : Int) (c : Connection)
    (l : List Connection) :
    (l.orderedInsert connDepGE c).filter (fun d => decide (d.departure_time = k)) =
      (c :: l).filter (fun d => decide (d.departure_time = k)) := by
  rw [List.orderedInsert_eq_take_drop]
  have htake : (l.takeWhile fun b => decide ¬ connDepGE c b).filter
      (fun d => decide (d.departure_time = k)) = [] ∨ c.departure_time ≠ k := by
    by_cases hc : c.departure_time = k
    · refine .inl ?_
      rw [List.filter_eq_nil_iff]
      intro d hd
      have hq := List.mem_takeWhile_imp hd
      simp only [decide_eq_true_eq, connDepGE, not_le] at hq
      simp only [decide_eq_true_eq]
      omega
    · exact .inr hc
  by_cases hc : c.departure_time = k
  · rcases htake with htake | hne
    · rw [List.filter_append, htake, List.nil_append,
        List.filter_cons_of_pos (by simp [hc]),
        List.filter_cons_of_pos (by simp [hc])]
      congr 1
      conv_rhs => rw [← List.takeWhile_append_dropWhile
        (fun b => decide ¬ connDepGE c b) l]
      rw [List.filter_append, htake, List.nil_append]
    · exact absurd hc hne
  · rw [List.filter_append, List.filter_cons_of_neg (by simp [hc]),
      List.filter_cons_of_neg (by simp [hc])]
    conv_rhs => rw [← List.takeWhile_append_dropWhile
      (fun b => decide ¬ connDepGE c b) l]
    rw [List.filter_append]

theorem filter_key_insertionSort (k : Int) (l : List Connection) :
    (List.insertionSort connDepGE l).filter
        (fun d => decide (d.departure_time = k)) =
      l.filter (fun d => decide (d.departure_time = k)) := by
  induction l with
  | nil => rfl
  | cons c l ih =>
    rw [List.insertionSort, filter_key_orderedInsert]
    by_cases hc : c.departure_time = k
    · rw [List.filter_cons_of_pos (by simp [hc]),
        List.filter_cons_of_pos (by simp [hc]), ih]
    · rw [List.filter_cons_of_neg (by simp [hc]),
        List.filter_cons_of_neg (by simp [hc]), ih]

/-- C3: for every source of connection rows and inclusive window
`[start, end]`, the timetable reader returns connections that all satisfy
`start ≤ departure_time ≤ end`; the result is a permutation of the
window-filtered input (no in-window connection dropped, no out-of-window
connection kept); it is sorted non-increasing by departure time; and ties
are kept stably in input order (for each key, the subsequence with that
departure time equals the one of the unsorted window-filtered input). -/
theorem read_connections_window_sorted_stable (rows : List ConnRow)
    (s e : Int) :
    (∀ c ∈ read_connections_csv rows s e,
        s ≤ c.departure_time ∧ c.departure_time ≤ e) ∧
      (read_connections_csv rows s e).Perm (windowConnections rows s e) ∧
      List.Pairwise (fun a b => b.departure_time ≤ a.departure_time)
        (read_connections_csv rows s e) ∧
      ∀ k : Int,
        (read_connections_csv rows s e).filter
            (fun c => decide (c.departure_time = k)) =
          (windowConnections rows s e).filter
            (fun c => decide (c.departure_time = k)) := by
  refine ⟨?_, List.perm_insertionSort connDepGE _, ?_, ?_⟩
  · intro c hc
    rw [read_connections_csv, List.mem_insertionSort] at hc
    rw [windowConnections, List.mem_map] at hc
    obtain ⟨r, hr, rfl⟩ := hc
    rw [List.mem_filter] at hr
    have hb := hr.2
    simp only [Bool.and_eq_true, decide_eq_true_eq] at hb
    exact hb
  · exact List.sorted_insertionSort connDepGE _
  · intro k
    exact filter_key_insertionSort k _

theorem read_connections_head_is_max (rows : List ConnRow) (s e : Int)
    (c : Connection) (rest : List Connection)
    (h : read_connections_csv rows s e = c :: rest) :
    c ∈ windowConnections rows s e ∧
      ∀ d ∈ windowConnections rows s e,
        d.departure_time ≤ c.departure_time := by
  have hsorted := List.sorted_insertionSort connDepGE
    (windowConnections rows s e)
  rw [show List.insertionSort connDepGE (windowConnections rows s e) =
      read_connections_csv rows s e from rfl, h] at hsorted
  constructor
  · have hc : c ∈ read_connections_csv rows s e := by
      rw [h]
      exact List.mem_cons_self _ _
    rwa [read_connections_csv, List.mem_insertionSort] at hc
  · intro d hd
    have hd2 : d ∈ c :: rest := by
      rw [← h, read_connections_csv, List.mem_insertionSort]
      exact hd
    rcases List.mem_cons.mp hd2 with rfl | hd3
    · exact le_refl _
    · exact List.rel_of_sorted_cons hsorted d hd3

/-- C6: when the profiler adapter is invoked with no explicit targets, the
resolved default target list is exactly the one-element list holding the
origin stop of the first connection of the window-filtered,
descending-departure-ordered connection sequence — i.e. the departure stop
of a connection with maximal departure time inside the window — a
data-dependent default, not a fixed constant. -/
theorem default_target_is_latest_departure_origin (connRows : List ConnRow)
    (transferRows : List TransferRow) (st : Settings) (params : RawParams)
    (hne : read_connections_csv connRows
        (params.routing_start_time_dep.getD st.routing_start_time_dep)
        (params.routing_end_time_dep.getD st.routing_end_time_dep) ≠ []) :
    ∃ c rest,
      read_connections_csv connRows
          (params.routing_start_time_dep.getD st.routing_start_time_dep)
          (params.routing_end_time_dep.getD st.routing_end_time_dep)
        = c :: rest ∧
      Except.map (fun x => x.1.targets)
          (get_new_csp_with_default_settings connRows transferRows st none
            params)
        = .ok [c.departure_stop] ∧
      c ∈ windowConnections connRows
          (params.routing_start_time_dep.getD st.routing_start_time_dep)
          (params.routing_end_time_dep.getD st.routing_end_time_dep) ∧
      ∀ d ∈ windowConnections connRows
          (params.routing_start_time_dep.getD st.routing_start_time_dep)
          (params.routing_end_time_dep.getD st.routing_end_time_dep),
        d.departure_time ≤ c.departure_time := by
  obtain ⟨c, rest, h⟩ := List.exists_cons_of_ne_nil hne
  obtain ⟨hmem, hmax⟩ := read_connections_head_is_max _ _ _ _ _ h
  refine ⟨c, rest, h, ?_, hmem, hmax⟩
  simp only [get_new_csp_with_default_settings, h]
  rfl

/-- Witness for C6 at the spec's end-to-end scenario B: connections
`(1→2, dep 100), (2→3, dep 210), (1→3, dep 50)` in window `[0, 1000]` with
no explicit targets give the default target list `[2]`, the origin of the
latest departure. -/
theorem default_target_witness :
    read_connections_csv
        ([⟨1, 2, 100, 200, 0, 0, 0, 0⟩, ⟨2, 3, 210, 300, 0, 1, 0, 0⟩,
          ⟨1, 3, 50, 400, 0, 2, 0, 0⟩] : List ConnRow) 0 1000 ≠ [] ∧
      ∃ c rest,
        read_connections_csv
            ([⟨1, 2, 100, 200, 0, 0, 0, 0⟩, ⟨2, 3, 210, 300, 0, 1, 0, 0⟩,
              ⟨1, 3, 50, 400, 0, 2, 0, 0⟩] : List ConnRow) 0 1000
          = c :: rest ∧
        Except.map (fun x => x.1.targets)
            (get_new_csp_with_default_settings
              ([⟨1, 2, 100, 200, 0, 0, 0, 0⟩, ⟨2, 3, 210, 300, 0, 1, 0, 0⟩,
                ⟨1, 3, 50, 400, 0, 2, 0, 0⟩] : List ConnRow)
              [] ⟨0, 1000⟩ none ⟨none, none, none, none, none, none, none⟩)
          = .ok [c.departure_stop] ∧
        c ∈ windowConnections
            ([⟨1, 2, 100, 200, 0, 0, 0, 0⟩, ⟨2, 3, 210, 300, 0, 1, 0, 0⟩,
              ⟨1, 3, 50, 400, 0, 2, 0, 0⟩] : List ConnRow) 0 1000 ∧
        ∀ d ∈ windowConnections
            ([⟨1, 2, 100, 200, 0, 0, 0, 0⟩, ⟨2, 3, 210, 300, 0, 1, 0, 0⟩,
              ⟨1, 3, 50, 400, 0, 2, 0, 0⟩] : List ConnRow) 0 1000,
          d.departure_time ≤ c.departure_time :=
  ⟨by decide,
    default_target_is_latest_departure_origin
      ([⟨1, 2, 100, 200, 0, 0, 0, 0⟩, ⟨2, 3, 210, 300, 0, 1, 0, 0⟩,
        ⟨1, 3, 50, 400, 0, 2, 0, 0⟩] : List ConnRow)
      [] ⟨0, 1000⟩ ⟨none, none, none, none, none, none, none⟩ (by decide)⟩

theorem alookup_writeFile_same {β : Type} (k : List Char) (v : β)
    (fs : List (List Char × β)) : alookup k (writeFile k v fs) = some v := by
  simp [alookup, writeFile]

/-- C5: the cached getters with `recompute = False` load and return an
existing cache entry for the target list's fingerprint without invoking the
compute function — in particular a second call right after a first one
re-invokes nothing and returns the stored result — and with
`recompute = True` they always invoke the compute function and overwrite
the cache entry, regardless of cache state. -/
theorem cached_getters_load_or_recompute {β γ : Type}
    (targets? : Option (List Nat)) (targets : List Nat)
    (recompute_profiles : Bool) (compute : List Nat → β)
    (computeStats : List Nat → Bool → γ) (fs : List (List Char × β))
    (gs : List (List Char × γ)) :
    (∀ blob, alookup (("node_profile_").data ++
          target_list_to_str (targets?.getD [115]) ++ (".pickle").data) fs
        = some blob →
      get_profile_data targets? false compute fs = (blob, fs, false)) ∧
    (get_profile_data targets? false compute
        (get_profile_data targets? false compute fs).2.1 =
      ((get_profile_data targets? false compute fs).1,
        (get_profile_data targets? false compute fs).2.1, false)) ∧
    (get_profile_data targets? true compute fs =
      (compute (targets?.getD [115]),
        writeFile (("node_profile_").data ++
            target_list_to_str (targets?.getD [115]) ++ (".pickle").data)
          (compute (targets?.getD [115])) fs, true)) ∧
    (∀ blob, alookup (("node_profile_statistics_").data ++
          target_list_to_str targets ++ (".pickle").data) gs = some blob →
      get_node_profile_statistics targets false false computeStats gs =
        (blob, gs, false)) ∧
    (get_node_profile_statistics targets true recompute_profiles computeStats
        gs =
      (computeStats targets recompute_profiles,
        writeFile (("node_profile_statistics_").data ++
            target_list_to_str targets ++ (".pickle").data)
          (computeStats targets recompute_profiles) gs, true)) := by
  refine ⟨?_, ?_, ?_, ?_, ?_⟩
  · intro blob h
    simp only [get_profile_data, h]
  · rcases h : alookup (("node_profile_").data ++
        target_list_to_str (targets?.getD [115]) ++ (".pickle").data) fs
      with _ | blob
    · simp only [get_profile_data, h, alookup_writeFile_same]
    · simp only [get_profile_data, h]
  · rcases h : alookup (("node_profile_").data ++
        target_list_to_str (targets?.getD [115]) ++ (".pickle").data) fs
      with _ | blob
    · simp only [get_profile_data, h]
    · simp only [get_profile_data, h]
  · intro blob h
    simp only [get_node_profile_statistics, Bool.false_eq_true, if_false, h]
  · rcases h : alookup (("node_profile_statistics_").data ++
        target_list_to_str targets ++ (".pickle").data) gs with _ | blob
    · simp only [get_node_profile_statistics, ite_self, h]
    · simp only [get_node_profile_statistics, ite_self, h]

/-- Witness for C5: with the `[115]` fingerprint file present, the getter
with `recompute = False` returns the stored blob without computing. -/
theorem cached_getter_witness :
    alookup (("node_profile_").data ++ target_list_to_str [115] ++
        (".pickle").data)
      [((("node_profile_").data ++ target_list_to_str [115] ++
        (".pickle").data), (42 : Nat))] = some 42 ∧
    get_profile_data none false (fun _ => 0)
        [((("node_profile_").data ++ target_list_to_str [115] ++
          (".pickle").data), (42 : Nat))] =
      (42, [((("node_profile_").data ++ target_list_to_str [115] ++
        (".pickle").data), (42 : Nat))], false) := by
  have h : alookup (("node_profile_").data ++ target_list_to_str [115] ++
      (".pickle").data)
      [((("node_profile_").data ++ target_list_to_str [115] ++
        (".pickle").data), (42 : Nat))] = some 42 := by
    simp [alookup]
  exact ⟨h, (cached_getters_load_or_recompute none [115] false (fun _ => 0)
    (fun _ _ => 0) _ []).1 42 h⟩

/-- C7: the public profile getter called with `targets = None` behaves
exactly as if called with the fixed constant `[115]`, independent of the
connection data; the Python default of `_compute_profile_data`'s `targets`
argument is the same fixed `[115]`; and the data-dependent default-target
rule does not apply when the engine-construction helper receives explicit
targets: then the resolved target list is exactly the given one, for every
connection input. -/
theorem public_getter_default_targets_fixed {β : Type} (recompute : Bool)
    (compute : List Nat → β) (fs : List (List Char × β))
    (connRows : List ConnRow) (transferRows : List TransferRow)
    (st : Settings) (ts : List Nat) (params : RawParams) :
    get_profile_data none recompute compute fs =
        get_profile_data (some [115]) recompute compute fs ∧
      compute_profile_data_default_targets = [115] ∧
      Except.map (fun x => x.1.targets)
          (get_new_csp_with_default_settings connRows transferRows st
            (some ts) params)
        = .ok ts :=
  ⟨rfl, rfl, rfl⟩

/-- C1 counterexample: a batch over targets `[1, 2]` in which the
non-negativity invariant fails for target 1 (observable value `-1`) while
target 2 would pass (value `1`): the batch does not skip target 1 and
continue — the `AssertionError` raised in the statistics stage lies outside
the loop's protected region, so the batch aborts with it and no result file
is written for any target, in particular none for target 2. -/
theorem batch_isolation_counterexample :
    compute_all_to_all_profile_statistics_with_defaults
        (fun cfg => .ok cfg.targets) (fun _ ts => .ok ts)
        (fun ts => .ok ([(0, ts.headD 0)], ts)) [] [] ⟨0, 0⟩
        [("m", fun n => some (PFloat.fin (if n = 1 then -1 else 1)))] 0 [0]
        (some [1, 2])
      = ([], some PyError.assertionError) ∧
    compute_all_to_all_profile_statistics_with_defaults
        (fun cfg => .ok cfg.targets) (fun _ ts => .ok ts)
        (fun ts => .ok ([(0, ts.headD 0)], ts)) [] [] ⟨0, 0⟩
        [("m", fun n => some (PFloat.fin (if n = 1 then -1 else 1)))] 0 [0]
        (some [2])
      = ([(2, [("m", [some (PFloat.fin 1)])])], none) :=
  ⟨rfl, rfl⟩

/-- C1 corrected (amended): per-target isolation holds only for
assertion-class errors raised by the per-target profile computation (the
engine run): such a target is skipped — logged and continued past, the
failed target merely having no result file — and the batch proceeds; but
when the validity invariant fails during the statistics reduction of a
target, the error is raised outside the protected region, so the batch
aborts and neither that target nor any remaining target gets a result
file. -/
theorem batch_skip_on_profile_assert_abort_on_stats {α ε : Type}
    (mkCSP : CSPSetup → Except PyError ε)
    (resetCSP : ε → List Nat → Except PyError ε)
    (runCSP : ε → Except PyError (List (Nat × α) × ε))
    (connRows : List ConnRow) (transferRows : List TransferRow) (st : Settings)
    (methods : List (String × (α → Option PFloat))) (emptyProfile : α)
    (node_stops : List Nat) (cs : Option ε) (t : Nat) (ts : List Nat) :
    (compute_profile_data mkCSP resetCSP runCSP connRows transferRows st
          true true none none [t] cs = .error .assertionError →
        compute_all_to_all_loop mkCSP resetCSP runCSP connRows transferRows st
            methods emptyProfile node_stops cs (t :: ts) =
          compute_all_to_all_loop mkCSP resetCSP runCSP connRows transferRows
            st methods emptyProfile node_stops cs ts) ∧
    (∀ profiles csN e,
        compute_profile_data mkCSP resetCSP runCSP connRows transferRows st
            true true none none [t] cs = .ok (profiles, csN) →
        (compute_profile_stats_from_profiles methods emptyProfile profiles
            node_stops).1 = .error e →
        compute_all_to_all_loop mkCSP resetCSP runCSP connRows transferRows st
            methods emptyProfile node_stops cs (t :: ts) = ([], some e)) := by
  constructor
  · intro h
    simp [compute_all_to_all_loop, h]
  · intro profiles csN e h1 h2
    simp [compute_all_to_all_loop, h1, h2]

/-- Witness for the amended C1: a target whose profile computation raises an
assertion error is skipped and the loop continues with the remaining
targets. -/
theorem batch_skip_witness :
    compute_profile_data
        (fun (_ : CSPSetup) => (.error .assertionError : Except PyError Unit))
        (fun _ _ => .error .assertionError)
        (fun _ => (.error .assertionError :
          Except PyError (List (Nat × Unit) × Unit)))
        [] [] ⟨0, 0⟩ true true none none [5] none = .error .assertionError ∧
      compute_all_to_all_loop
          (fun (_ : CSPSetup) => (.error .assertionError : Except PyError Unit))
          (fun _ _ => .error .assertionError)
          (fun _ => (.error .assertionError :
            Except PyError (List (Nat × Unit) × Unit)))
          [] [] ⟨0, 0⟩ ([] : List (String × (Unit → Option PFloat))) () []
          none [5] =
        compute_all_to_all_loop
          (fun (_ : CSPSetup) => (.error .assertionError : Except PyError Unit))
          (fun _ _ => .error .assertionError)
          (fun _ => (.error .assertionError :
            Except PyError (List (Nat × Unit) × Unit)))
          [] [] ⟨0, 0⟩ ([] : List (String × (Unit → Option PFloat))) () []
          none [] := by
  refine ⟨rfl, ?_⟩
  exact (batch_skip_on_profile_assert_abort_on_stats
    (fun (_ : CSPSetup) => (.error .assertionError : Except PyError Unit))
    (fun _ _ => .error .assertionError)
    (fun _ => (.error .assertionError :
      Except PyError (List (Nat × Unit) × Unit)))
    [] [] ⟨0, 0⟩ ([] : List (String × (Unit → Option PFloat))) () []
    none 5 []).1 rfl

end Compute
